import Mathlib

/-!
Shallow embedding of the OCC returns-automation scripts
(OccReturns.py and main.py) and proofs about the claims of the
specification.  File contents: first the definitions translated from the
source, then the theorems settling the claims.
-/

/-- Python exceptions that the scripts can raise while manipulating
plain data (unbound local variable, list index out of range, missing
dictionary key). -/
inductive PyError where
  | nameError : PyError
  | indexError : PyError
  | keyError : PyError
deriving DecidableEq, Repr

/-- Token payload as parsed from token.json: the fields the code reads. -/
structure Token where
  token_type : String
  access_token : String
deriving DecidableEq, Repr

/-- State of the token cache file (TOKEN_PATH).  `none` means the file
does not exist; `some (sz, tok)` means the file exists, has byte size
`sz` and parses to `tok`. -/
structure TokenState where
  cache : Option (Nat × Token)
deriving DecidableEq, Repr

/-- Embedding of OccReturns._refresh_token: POST to the refresh endpoint
(assumed to answer with payload `fresh`), persist the payload via
_save_token (the serialized file size is `sizeOf_ fresh`), and return it.
The middle component counts refresh calls performed (always one here). -/
def refresh_token (fresh : Token) (sizeOf_ : Token → Nat) (_st : TokenState) :
    Token × Nat × TokenState :=
  (fresh, 1, ⟨some (sizeOf_ fresh, fresh)⟩)

/-- Embedding of OccReturns._load_token: if the cache file is missing or
its byte size is not in range(160, 196), refresh; otherwise parse and
return the cached token.  The middle component counts refresh calls. -/
def load_token (st : TokenState) (fresh : Token) (sizeOf_ : Token → Nat) :
    Token × Nat × TokenState :=
  match st.cache with
  | none => refresh_token fresh sizeOf_ st
  | some (sz, tok) =>
    if 160 ≤ sz ∧ sz < 196 then (tok, 0, st)
    else refresh_token fresh sizeOf_ st

/-- The Authorization header value built throughout OccReturns.py:
the Python f-string of token_type and access_token. -/
def authValue (t : Token) : String :=
  t.token_type ++ " " ++ t.access_token

/-- Generic keyword-argument dictionary comprehension used by the three
builders of OccReturns.py: keep exactly the entries whose value is not
None. -/
def omitNone (kwargs : List (String × Option α)) : List (String × α) :=
  kwargs.filterMap fun kv => kv.2.map fun v => (kv.1, v)

/-- Embedding of OccReturns._build_headers. -/
def build_headers (kwargs : List (String × Option α)) : List (String × α) :=
  omitNone kwargs

/-- Embedding of OccReturns._build_params. -/
def build_params (kwargs : List (String × Option α)) : List (String × α) :=
  omitNone kwargs

/-- Embedding of OccReturns._build_body. -/
def build_body (kwargs : List (String × Option α)) : List (String × α) :=
  omitNone kwargs

/-- A JSON-able scalar value appearing in query parameters and bodies. -/
inductive PVal where
  | str : String → PVal
  | int : Int → PVal
deriving DecidableEq, Repr

/-- An HTTP response: status code and (parsed JSON) body. -/
structure HttpResponse where
  status : Nat
  respBody : String
deriving DecidableEq, Repr

/-- The wire verb actually used for a network call. -/
inductive Verb where
  | post : Verb
  | get : Verb
deriving DecidableEq, Repr

/-- One wire call performed by _send_request: the verb used and the
headers in force at the moment of the call, plus the response. -/
structure Attempt where
  verb : Verb
  headers : List (String × String)
  resp : HttpResponse
deriving DecidableEq, Repr

/-- Result of _send_request: the response the function returns, the
trace of wire calls it performed, the number of _refresh_token calls it
made, and the final contents of the headers dictionary it mutated. -/
structure SendResult where
  response : HttpResponse
  attempts : List Attempt
  refreshes : Nat
  finalHeaders : List (String × String)
deriving DecidableEq, Repr

/-- Python dictionary item assignment on an association list: replace
the first binding of the key in place, else append a new binding. -/
def setItem : List (String × String) → String → String → List (String × String)
  | [], k, v => [(k, v)]
  | (k', v') :: rest, k, v =>
    if k' = k then (k, v) :: rest else (k', v') :: setItem rest k v

/-- The two-iteration retry loop shared by the three method branches of
OccReturns._send_request.  `transport n` is the response to the n-th
wire call; `rtokens n` is the payload the n-th _refresh_token call
yields.  First attempt: if the status is not 401, return at once.
Otherwise refresh, overwrite Authorization, attempt again; if still not
401 return, and if the second response is again 401 the loop body runs
a second refresh before the loop ends and the last response is
returned. -/
def runAttempts (verb : Verb) (transport : Nat → HttpResponse)
    (rtokens : Nat → Token) (headers0 : List (String × String)) : SendResult :=
  let r0 := transport 0
  let a0 : Attempt := ⟨verb, headers0, r0⟩
  if r0.status ≠ 401 then
    ⟨r0, [a0], 0, headers0⟩
  else
    let h1 := setItem headers0 "Authorization" (authValue (rtokens 0))
    let r1 := transport 1
    let a1 : Attempt := ⟨verb, h1, r1⟩
    if r1.status ≠ 401 then
      ⟨r1, [a0, a1], 1, h1⟩
    else
      let h2 := setItem h1 "Authorization" (authValue (rtokens 1))
      ⟨r1, [a0, a1], 2, h2⟩

/-- Embedding of OccReturns._send_request.  The method string is
lowercased and dispatched: the post and get branches use their verb,
while the delete branch of the source calls requests.get, so its wire
verb is GET.  Any other method leaves the local variable response
unbound and the final return statement raises NameError, modelled as
`none`. -/
def send_request (httpMethod : String) (transport : Nat → HttpResponse)
    (rtokens : Nat → Token) (headers0 : List (String × String)) :
    Option SendResult :=
  match httpMethod.toLower with
  | "post" => some (runAttempts .post transport rtokens headers0)
  | "get" => some (runAttempts .get transport rtokens headers0)
  | "delete" => some (runAttempts .get transport rtokens headers0)
  | _ => none

/-- An error escaping a client operation: either the HTTPError raised by
response.raise_for_status (carrying status code and body) or a plain
Python error. -/
inductive CallErr where
  | http : Nat → String → CallErr
  | py : PyError → CallErr
deriving DecidableEq, Repr

deriving instance DecidableEq for Except

/-- Embedding of requests.Response.raise_for_status: raise HTTPError for
status codes in [400, 600), do nothing otherwise. -/
def raise_for_status (r : HttpResponse) : Except CallErr Unit :=
  if 400 ≤ r.status ∧ r.status < 600 then .error (.http r.status r.respBody)
  else .ok ()

/-- Observable outcome of one public client operation of OccReturns.py:
the query parameters, body and headers it built, the result of the
dispatch, and the value returned to the caller (parsed JSON body) or the
error raised. -/
structure ApiCall where
  params : List (String × PVal)
  reqBody : List (String × PVal)
  headers : List (String × String)
  sent : Option SendResult
  outcome : Except CallErr String
deriving DecidableEq, Repr

/-- Embedding of OccReturns.get_returns: build params
(fields, sort, pageSize, currentPage) and body
(county, channel, dateFrom, dateTo) by dropping None values, load the
token once, build headers from the keyword arguments Authorization and
Content_Type, dispatch a POST with the retry logic, raise for a non-ok
status and return the parsed JSON body. -/
def get_returns (st : TokenState) (fresh : Token) (sizeOf_ : Token → Nat)
    (transport : Nat → HttpResponse) (rtokens : Nat → Token)
    (date_from date_to : String) (page_size current_page : Int)
    (fields sort content_type country channel : String) : ApiCall :=
  let params := build_params [("fields", some (.str fields)), ("sort", some (.str sort)),
    ("pageSize", some (.int page_size)), ("currentPage", some (.int current_page))]
  let reqBody := build_body [("county", some (.str country)), ("channel", some (.str channel)),
    ("dateFrom", some (.str date_from)), ("dateTo", some (.str date_to))]
  let token_data := (load_token st fresh sizeOf_).1
  let headers := build_headers [("Authorization", some (authValue token_data)),
    ("Content_Type", some content_type)]
  match send_request "post" transport rtokens headers with
  | some res =>
    { params := params, reqBody := reqBody, headers := headers, sent := some res,
      outcome := (raise_for_status res.response).map fun _ => res.response.respBody }
  | none =>
    { params := params, reqBody := reqBody, headers := headers, sent := none,
      outcome := .error (.py .nameError) }

/-- Embedding of OccReturns.create_comment: empty params, body
containing the comment text, headers with only Authorization, POST with
the retry logic, raise for a non-ok status and return the parsed JSON
body. -/
def create_comment (st : TokenState) (fresh : Token) (sizeOf_ : Token → Nat)
    (transport : Nat → HttpResponse) (rtokens : Nat → Token)
    (comment : String) : ApiCall :=
  let params : List (String × PVal) := []
  let reqBody := build_body [("comment", some (.str comment))]
  let token_data := (load_token st fresh sizeOf_).1
  let headers := build_headers [("Authorization", some (authValue token_data))]
  match send_request "post" transport rtokens headers with
  | some res =>
    { params := params, reqBody := reqBody, headers := headers, sent := some res,
      outcome := (raise_for_status res.response).map fun _ => res.response.respBody }
  | none =>
    { params := params, reqBody := reqBody, headers := headers, sent := none,
      outcome := .error (.py .nameError) }

/-- Embedding of OccReturns.delete_comment: empty params, headers with
only Authorization, a dispatch with http_method delete, and no status
check at all: the response is dropped and the method returns None, so
the outcome is always ok with no payload. -/
def delete_comment (st : TokenState) (fresh : Token) (sizeOf_ : Token → Nat)
    (transport : Nat → HttpResponse) (rtokens : Nat → Token) : ApiCall :=
  let params : List (String × PVal) := []
  let token_data := (load_token st fresh sizeOf_).1
  let headers := build_headers [("Authorization", some (authValue token_data))]
  match send_request "delete" transport rtokens headers with
  | some res =>
    { params := params, reqBody := [], headers := headers, sent := some res,
      outcome := .ok "" }
  | none =>
    { params := params, reqBody := [], headers := headers, sent := none,
      outcome := .error (.py .nameError) }

/-- A comment record as read by main.py: author name, text and code are
accessed by direct indexing or with string defaults. -/
structure CisComment where
  authorName : String
  text : String
  code : Int
deriving DecidableEq, Repr

/-- An object carrying a name field, as accessed through
.get(key, \x7b\x7d).get("name", ""). -/
structure NamedObj where
  name : Option String
deriving DecidableEq, Repr

/-- An object carrying a uid field. -/
structure UidObj where
  uid : Option String
deriving DecidableEq, Repr

/-- The account object nested under order. -/
structure AccountObj where
  accUid : Option String
deriving DecidableEq, Repr

/-- The order object of a summary return record. -/
structure OrderObj where
  account : Option AccountObj
  orderCode : Option String
  orderGroupType : Option String
  groupNumber : Option String
deriving DecidableEq, Repr

/-- Empty order object, the default of .get("order", \x7b\x7d). -/
def OrderObj.emp : OrderObj := ⟨none, none, none, none⟩

/-- A summary return record of the returns list, with exactly the
fields _search_incomplete_returns and _simplify_returns_list read. -/
structure ReturnItem where
  code : Option Int
  statusDisplay : Option String
  returnAbo : Option UidObj
  cisComments : List CisComment
  fullReturn : Option Bool
  order : Option OrderObj
  returnRequestReason : Option NamedObj
  orderedGoodsType : Option NamedObj
  refundInfo : List String
  returnValue : Option ℚ
  refundStatusDisplay : Option NamedObj
  date : Option String
  returnedGoodsType : Option NamedObj
deriving DecidableEq, Repr

/-- The orderEntry object nested in a detail entry. -/
structure OrderEntryObj where
  warehouseName : Option String
deriving DecidableEq, Repr

/-- One entry of a detailed return record. -/
structure EntryD where
  productSku : Option String
  expectedQuantity : Option Int
  cisComment : Option (List String)
  orderEntry : Option OrderEntryObj
deriving DecidableEq, Repr

/-- The order object of a detailed return record. -/
structure OrderD where
  groupNumber : Option String
deriving DecidableEq, Repr

/-- A detailed return record, as returned by create_comment and read by
_get_returns_data and _simplify_returns_list. -/
structure Detail where
  rma : Option Int
  orderD : Option OrderD
  entries : Option (List EntryD)
  warehouseName : Option String
  comment : Option String
  cisComments : List CisComment
deriving DecidableEq, Repr

/-- Embedding of Main._search_incomplete_returns: walk the returns list
and collect, in order, the code of every item whose statusDisplay is
exactly the pending-approval label.  Direct dictionary indexing on a
missing key raises KeyError. -/
def search_incomplete_returns : List ReturnItem → Except PyError (List Int)
  | [] => .ok []
  | r :: rest =>
    match r.statusDisplay with
    | none => .error .keyError
    | some sd =>
      if sd = "Ожидает утверждения" then
        match r.code with
        | none => .error .keyError
        | some c => (search_incomplete_returns rest).map fun tl => c :: tl
      else search_incomplete_returns rest

/-- The client operations main.py calls, as oracles that either return
a value or raise.  getReturnsOp abstracts OccReturns.get_returns,
createCommentOp abstracts create_comment, deleteCommentOp abstracts
delete_comment and webhookOp the final requests.post plus its
raise_for_status. -/
structure Client (ε : Type) where
  getReturnsOp : Except ε (List ReturnItem)
  createCommentOp : Int → String → Except ε Detail
  deleteCommentOp : Int → Int → Except ε Unit
  webhookOp : Except ε Unit

/-- Trace of side-effecting client calls performed by the probe step:
create calls as (return code, comment text) and delete calls as
(return code, comment code), in order. -/
structure DataTrace where
  createCalls : List (Int × String)
  deleteCalls : List (Int × Int)
deriving DecidableEq, Repr

/-- The inner comment scan of Main._get_returns_data: for each comment
of the detail record, if its author name is Anonymous, issue one delete
call for its code.  Returns the delete outcome (an error aborts the
scan) and the list of delete calls issued. -/
def deleteAnon (cl : Client ε) (code : Int) :
    List CisComment → Except ε Unit × List (Int × Int)
  | [] => (.ok (), [])
  | cm :: rest =>
    if cm.authorName = "Anonymous" then
      match cl.deleteCommentOp code cm.code with
      | .error e => (.error e, [(code, cm.code)])
      | .ok _ =>
        let (res, calls) := deleteAnon cl code rest
        (res, (code, cm.code) :: calls)
    else deleteAnon cl code rest

/-- Embedding of Main._get_returns_data: for each incomplete return
code, create a probe comment with text ".", delete the comments of the
returned detail record authored by Anonymous, and collect the detail
records.  Any error raised by a client call aborts the loop; the trace
records the calls performed up to that point. -/
def get_returns_data (cl : Client ε) : List Int → Except ε (List Detail) × DataTrace
  | [] => (.ok [], ⟨[], []⟩)
  | c :: rest =>
    match cl.createCommentOp c "." with
    | .error e => (.error e, ⟨[(c, ".")], []⟩)
    | .ok detail =>
      let (dres, dcalls) := deleteAnon cl c detail.cisComments
      match dres with
      | .error e => (.error e, ⟨[(c, ".")], dcalls⟩)
      | .ok _ =>
        let (res, tr) := get_returns_data cl rest
        (res.map fun tl => detail :: tl,
         ⟨(c, ".") :: tr.createCalls, dcalls ++ tr.deleteCalls⟩)

/-- Python str() applied to an optional string value: None prints as
"None", a string prints as itself. -/
def pyStrS : Option String → String
  | none => "None"
  | some s => s

/-- Python str() applied to an optional integer value: None prints as
"None", an integer as its decimal representation. -/
def pyStrI : Option Int → String
  | none => "None"
  | some n => toString n

/-- The six local variables of _simplify_returns_list that are assigned
only inside the inner detail-matching loop and are never reset between
iterations of the outer loop. -/
structure DetailFields where
  group_number : String
  sku_and_quantity : List String
  initial_comment : List (List String)
  order_warehouse_name : String
  return_warehouse_name : String
  initial_comment2 : String
deriving DecidableEq, Repr

/-- Body of the inner loop of _simplify_returns_list for a detail
record whose rma matches the current code: compute the six
detail-derived values.  Reading entries[0] of an empty entries list
raises IndexError. -/
def detailFields (d : Detail) : Except PyError DetailFields :=
  let entries := d.entries.getD []
  match entries with
  | [] => .error .indexError
  | e0 :: _ =>
    .ok { group_number := ((d.orderD.getD ⟨none⟩).groupNumber).getD ""
          sku_and_quantity := entries.map fun e =>
            pyStrS e.productSku ++ " " ++ pyStrI e.expectedQuantity
          initial_comment := entries.map fun e => e.cisComment.getD []
          order_warehouse_name := ((e0.orderEntry.getD ⟨none⟩).warehouseName).getD ""
          return_warehouse_name := d.warehouseName.getD ""
          initial_comment2 := d.comment.getD "" }

/-- The inner loop of _simplify_returns_list: walk the detail records,
skip the ones whose rma differs from the current code, and overwrite
the detail-derived variables for each matching one.  The carry is the
current value of those variables, `none` when they are still unbound. -/
def innerLoop (code : Int) (carry : Option DetailFields) :
    List Detail → Except PyError (Option DetailFields)
  | [] => .ok carry
  | d :: rest =>
    if d.rma = some code then
      match detailFields d with
      | .error e => .error e
      | .ok df => innerLoop code (some df) rest
    else innerLoop code carry rest

/-- The flattened output record built by _simplify_returns_list for one
incomplete return. -/
structure SimpleRecordT where
  code : Int
  group_number : String
  return_abo : String
  comments : List (String × String)
  full_return : Option Bool
  uid : String
  order_code : String
  status_display : String
  returns_request_reason : String
  ordered_goods_type : String
  refund_info : List String
  return_value : ℚ
  sku_and_quantity : List String
  return_warehouse_name : String
  order_warehouse_name : String
  initial_comment : List (List String)
  return_date : String
  refund_status_display : String
  initial_comment2 : String
  order_type : String
  returned_goods_type : String
deriving DecidableEq, Repr

/-- One element of the simplified output list: either the error record
appended for an item with no code, or a full flattened record. -/
inductive SimpleEntry where
  | errRec : SimpleEntry
  | record : SimpleRecordT → SimpleEntry
deriving DecidableEq, Repr

/-- The record built at the end of an outer-loop iteration of
_simplify_returns_list, from the summary return item, its code and the
current values of the detail-derived variables. -/
def buildRecord (r : ReturnItem) (code : Int) (df : DetailFields) : SimpleRecordT :=
  { code := code
    group_number := df.group_number
    return_abo := ((r.returnAbo.getD ⟨none⟩).uid).getD ""
    comments := r.cisComments.map fun cm => (cm.authorName, cm.text)
    full_return := r.fullReturn
    uid := (((r.order.getD .emp).account.getD ⟨none⟩).accUid).getD ""
    order_code := ((r.order.getD .emp).orderCode).getD ""
    status_display := r.statusDisplay.getD ""
    returns_request_reason := ((r.returnRequestReason.getD ⟨none⟩).name).getD ""
    ordered_goods_type := ((r.orderedGoodsType.getD ⟨none⟩).name).getD ""
    refund_info := r.refundInfo
    return_value := r.returnValue.getD 0
    sku_and_quantity := df.sku_and_quantity
    return_warehouse_name := df.return_warehouse_name
    order_warehouse_name := df.order_warehouse_name
    initial_comment := df.initial_comment
    return_date := r.date.getD ""
    refund_status_display := ((r.refundStatusDisplay.getD ⟨none⟩).name).getD ""
    initial_comment2 := df.initial_comment2
    order_type := ((r.order.getD .emp).orderGroupType).getD ""
    returned_goods_type := ((r.returnedGoodsType.getD ⟨none⟩).name).getD "" }

/-- The outer loop of _simplify_returns_list with the detail-derived
variables made explicit as the carry: an item without code appends the
error record and is then skipped by the membership test; an item whose
code is not in the incomplete list is skipped; otherwise the inner loop
updates the carry over the detail records and the flattened record is
built from the carry, raising NameError when the carry is still unbound. -/
def simplifyLoop (incomplete : List Int) (dsData : List Detail) :
    List ReturnItem → Option DetailFields → Except PyError (List SimpleEntry)
  | [], _ => .ok []
  | r :: rest, carry =>
    match r.code with
    | none =>
      (simplifyLoop incomplete dsData rest carry).map fun tl => .errRec :: tl
    | some c =>
      if c ∈ incomplete then
        match innerLoop c carry dsData with
        | .error e => .error e
        | .ok none => .error .nameError
        | .ok (some df) =>
          (simplifyLoop incomplete dsData rest (some df)).map fun tl =>
            .record (buildRecord r c df) :: tl
      else simplifyLoop incomplete dsData rest carry

/-- The flattening step of Main._simplify_returns_list, taking the
detail records as already fetched: run the outer loop with the
detail-derived variables initially unbound. -/
def simplify_core (returnsL : List ReturnItem) (incomplete : List Int)
    (dsData : List Detail) : Except PyError (List SimpleEntry) :=
  simplifyLoop incomplete dsData returnsL none

/-- An error aborting the orchestrator run: one raised by a client
operation or a plain Python error of the orchestrator itself. -/
inductive RunErr (ε : Type) where
  | api : ε → RunErr ε
  | py : PyError → RunErr ε
deriving DecidableEq, Repr

/-- Embedding of Main._simplify_returns_list: fetch the detail data via
the probe step, then run the flattening loop. -/
def simplify_returns_list (cl : Client ε) (returnsL : List ReturnItem)
    (incomplete : List Int) : Except (RunErr ε) (List SimpleEntry) × DataTrace :=
  let (rd, tr) := get_returns_data cl incomplete
  match rd with
  | .error e => (.error (.api e), tr)
  | .ok dsData =>
    match simplify_core returnsL incomplete dsData with
    | .error pe => (.error (.py pe), tr)
    | .ok out => (.ok out, tr)

/-- Trace of the observable side effects of one orchestrator run. -/
structure RunTrace where
  createCalls : List (Int × String)
  deleteCalls : List (Int × Int)
  webhookCalls : Nat
deriving DecidableEq, Repr

/-- Embedding of Main.main: fetch the returns list, filter the
incomplete returns, simplify (which performs the probe calls), then
POST the final payload to the webhook and raise for its status.  A
raised error aborts the run at that point; the trace records the calls
performed. -/
def main_run (cl : Client ε) : Except (RunErr ε) Unit × RunTrace :=
  match cl.getReturnsOp with
  | .error e => (.error (.api e), ⟨[], [], 0⟩)
  | .ok returnsL =>
    match search_incomplete_returns returnsL with
    | .error pe => (.error (.py pe), ⟨[], [], 0⟩)
    | .ok incomplete =>
      let (sres, tr) := simplify_returns_list cl returnsL incomplete
      match sres with
      | .error e => (.error e, ⟨tr.createCalls, tr.deleteCalls, 0⟩)
      | .ok _final =>
        match cl.webhookOp with
        | .error e => (.error (.api e), ⟨tr.createCalls, tr.deleteCalls, 1⟩)
        | .ok _ => (.ok (), ⟨tr.createCalls, tr.deleteCalls, 1⟩)

/-- The wire verb the dispatch of _send_request uses for a given method
string: POST for post, GET for get and also for delete (the delete
branch of the source calls requests.get). -/
def verbOf (m : String) : Verb :=
  if m.toLower = "post" then .post else .get

/-- A sample cached token. -/
def tkCached : Token := ⟨"Bearer", "abc"⟩

/-- A sample freshly issued token. -/
def tkFresh : Token := ⟨"Bearer", "fresh0"⟩

/-- A sample token-cache state holding a file of valid size. -/
def stValid : TokenState := ⟨some (170, tkCached)⟩

/-- A sample serialized-size function for saved tokens. -/
def szF : Token → Nat := fun _ => 180

/-- Sample refresh-endpoint payloads, one per refresh call. -/
def rtoksEx : Nat → Token := fun n => ⟨"Bearer", "fresh" ++ toString n⟩

/-- Sample initial headers for a dispatch. -/
def hdrsEx : List (String × String) := [("Authorization", "Bearer old")]

/-- A transport answering 401 to every attempt. -/
def transport401 : Nat → HttpResponse := fun _ => ⟨401, "unauthorized"⟩

/-- A transport answering 200 to every attempt. -/
def transport200 : Nat → HttpResponse := fun _ => ⟨200, "payload"⟩

/-- A transport answering 304 to every attempt. -/
def transport304 : Nat → HttpResponse := fun _ => ⟨304, "not modified"⟩

/-- A transport answering 404 to every attempt. -/
def transport404 : Nat → HttpResponse := fun _ => ⟨404, "not found"⟩

/-- A sample summary return with the pending-approval status label. -/
def riPending : ReturnItem :=
  ⟨some 1, some "Ожидает утверждения", none, [], none, none, none, none, [], none, none, none, none⟩

/-- A sample summary return with an already approved status label. -/
def riApproved : ReturnItem :=
  ⟨some 2, some "Approved", none, [], none, none, none, none, [], none, none, none, none⟩

/-- A sample detail record whose comments are an anonymous sentinel
comment with code 10 and a named comment with code 11. -/
def detAnon : Detail :=
  ⟨some 1, none, none, none, none, [⟨"Anonymous", ".", 10⟩, ⟨"Bob", "hi", 11⟩]⟩

/-- A sample client whose probe operations always succeed and whose
create operation returns detAnon. -/
def clProbe : Client Unit :=
  ⟨.ok [], fun _ _ => .ok detAnon, fun _ _ => .ok (), .ok ()⟩

/-- A sample detail entry with SKU S1 and expected quantity 2. -/
def eSku : EntryD := ⟨some "S1", some 2, none, none⟩

/-- A sample detail record with rma 7 and the single entry eSku. -/
def dSku : Detail := ⟨some 7, none, some [eSku], none, none, []⟩

/-- A sample order object whose account uid is U1. -/
def oU1 : OrderObj := ⟨some ⟨some "U1"⟩, none, none, none⟩

/-- A sample incomplete return with code 7, uid U1 and value 500. -/
def rU1 : ReturnItem :=
  ⟨some 7, some "Ожидает утверждения", none, [], none, some oU1, none, none, [],
   some 500, none, none, none⟩

/-- A sample return with code 5 used for the carry-reuse scenario. -/
def rCode5 : ReturnItem :=
  ⟨some 5, some "x", none, [], none, none, none, none, [], none, none, none, none⟩

/-- Sample stale detail-derived values left over from an earlier
iteration. -/
def dfStale : DetailFields := ⟨"G1", ["S 1"], [[]], "W1", "W2", "c"⟩

/-- The detail-derived values computed from dSku. -/
def dfSku : DetailFields := ⟨"", ["S1 2"], [[]], "", "", ""⟩

/-- A sample client whose returns-list fetch raises. -/
def clFetchFail : Client String :=
  ⟨.error "boom", fun _ _ => .ok detAnon, fun _ _ => .ok (), .ok ()⟩

/-- A sample client whose returns-list fetch succeeds with one pending
return and whose comment-create probe raises. -/
def clCreateFail : Client String :=
  ⟨.ok [riPending, riApproved], fun _ _ => .error "createfail", fun _ _ => .ok (), .ok ()⟩

/-! Helper lemmas shared by several proofs. -/

lemma omitNone_eq_filter_map (d : α) (kvs : List (String × Option α)) :
    omitNone kvs = (kvs.filter fun kv => kv.2.isSome).map fun kv => (kv.1, kv.2.getD d) := by
  induction kvs with
  | nil => rfl
  | cons kv rest ih =>
    obtain ⟨k, v⟩ := kv
    cases v <;> simp [omitNone, List.filterMap_cons, List.filter_cons] at ih ⊢ <;>
      simpa [omitNone] using ih

lemma runAttempts_first_ok (v : Verb) (T : Nat → HttpResponse) (K : Nat → Token)
    (h0 : List (String × String)) (h : (T 0).status ≠ 401) :
    runAttempts v T K h0 = ⟨T 0, [⟨v, h0, T 0⟩], 0, h0⟩ := by
  simp [runAttempts, h]

lemma runAttempts_retry_ok (v : Verb) (T : Nat → HttpResponse) (K : Nat → Token)
    (h0 : List (String × String)) (h : (T 0).status = 401) (h1 : (T 1).status ≠ 401) :
    runAttempts v T K h0 =
      ⟨T 1, [⟨v, h0, T 0⟩, ⟨v, setItem h0 "Authorization" (authValue (K 0)), T 1⟩], 1,
        setItem h0 "Authorization" (authValue (K 0))⟩ := by
  simp [runAttempts, h, h1]

lemma runAttempts_retry_401 (v : Verb) (T : Nat → HttpResponse) (K : Nat → Token)
    (h0 : List (String × String)) (h : (T 0).status = 401) (h1 : (T 1).status = 401) :
    runAttempts v T K h0 =
      ⟨T 1, [⟨v, h0, T 0⟩, ⟨v, setItem h0 "Authorization" (authValue (K 0)), T 1⟩], 2,
        setItem (setItem h0 "Authorization" (authValue (K 0))) "Authorization"
          (authValue (K 1))⟩ := by
  simp [runAttempts, h, h1]

lemma send_request_known (m : String) (T : Nat → HttpResponse) (K : Nat → Token)
    (h0 : List (String × String))
    (hm : m.toLower = "post" ∨ m.toLower = "get" ∨ m.toLower = "delete") :
    send_request m T K h0 = some (runAttempts (verbOf m) T K h0) := by
  rcases hm with hm | hm | hm <;> simp [send_request, verbOf, hm]

lemma toLower_post : "post".toLower = "post" := by
  rw [String.toLower, String.map_eq]; decide

lemma toLower_delete : "delete".toLower = "delete" := by
  rw [String.toLower, String.map_eq]; decide

lemma verbOf_post : verbOf "post" = .post := by
  rw [verbOf, toLower_post]; simp

lemma verbOf_delete : verbOf "delete" = .get := by
  rw [verbOf, toLower_delete]; simp

/-- Claim C1 (amended): for every request dispatched by _send_request
with a known method, if the first response status is not 401, that
response is returned immediately with no refresh and no second attempt;
if the first response is 401, the Authorization header is overwritten
with the refreshed credentials, exactly one further attempt is made and
the second response is returned even if still 401 — at most two
attempts; exactly one refresh call occurs when the second response is
not 401, and a second refresh call occurs when the second response is
again 401. -/
theorem C1_send_request_retry (m : String) (T : Nat → HttpResponse)
    (K : Nat → Token) (h0 : List (String × String))
    (hm : m.toLower = "post" ∨ m.toLower = "get" ∨ m.toLower = "delete") :
    send_request m T K h0 = some (runAttempts (verbOf m) T K h0)
    ∧ (runAttempts (verbOf m) T K h0).attempts.length ≤ 2
    ∧ ((T 0).status ≠ 401 →
        runAttempts (verbOf m) T K h0 = ⟨T 0, [⟨verbOf m, h0, T 0⟩], 0, h0⟩)
    ∧ ((T 0).status = 401 → (T 1).status ≠ 401 →
        runAttempts (verbOf m) T K h0 =
          ⟨T 1, [⟨verbOf m, h0, T 0⟩,
            ⟨verbOf m, setItem h0 "Authorization" (authValue (K 0)), T 1⟩], 1,
            setItem h0 "Authorization" (authValue (K 0))⟩)
    ∧ ((T 0).status = 401 → (T 1).status = 401 →
        (runAttempts (verbOf m) T K h0).response = T 1
        ∧ (runAttempts (verbOf m) T K h0).refreshes = 2) := by
  refine ⟨send_request_known m T K h0 hm, ?_, ?_, ?_, ?_⟩
  · by_cases h : (T 0).status = 401
    · by_cases h1 : (T 1).status = 401
      · rw [runAttempts_retry_401 _ T K h0 h h1]; simp
      · rw [runAttempts_retry_ok _ T K h0 h h1]; simp
    · rw [runAttempts_first_ok _ T K h0 h]; simp
  · intro h; exact runAttempts_first_ok _ T K h0 h
  · intro h h1; exact runAttempts_retry_ok _ T K h0 h h1
  · intro h h1; rw [runAttempts_retry_401 _ T K h0 h h1]; exact ⟨rfl, rfl⟩

/-- Claim C1 counterexample: with a transport answering 401 to both
attempts, the dispatch performs two refresh calls, not at most one as
the claim states. -/
theorem C1_counterexample :
    (send_request "post" transport401 rtoksEx hdrsEx).map SendResult.refreshes = some 2
    ∧ (send_request "post" transport401 rtoksEx hdrsEx).map SendResult.refreshes ≠ some 1 := by
  rw [send_request_known "post" transport401 rtoksEx hdrsEx (Or.inl toLower_post), verbOf_post]
  constructor <;> decide

/-- Claim C1 witness: the amended theorem applied to the post method
with a transport answering 200 at once. -/
theorem C1_witness :
    send_request "post" transport200 rtoksEx hdrsEx
      = some (runAttempts (verbOf "post") transport200 rtoksEx hdrsEx)
    ∧ runAttempts (verbOf "post") transport200 rtoksEx hdrsEx
      = ⟨transport200 0, [⟨verbOf "post", hdrsEx, transport200 0⟩], 0, hdrsEx⟩ :=
  ⟨(C1_send_request_retry "post" transport200 rtoksEx hdrsEx (Or.inl toLower_post)).1,
   (C1_send_request_retry "post" transport200 rtoksEx hdrsEx (Or.inl toLower_post)).2.2.1
     (by decide)⟩

/-- Claim C2: loadToken returns the parsed cached token with no refresh
call exactly when the cache file exists and its byte size lies in
[160, 196); when the file is missing or its size is outside that range,
loadToken triggers exactly one refresh call, which persists the newly
issued token and returns it. -/
theorem C2_load_token (st : TokenState) (fresh : Token) (sizeOf_ : Token → Nat) :
    ((load_token st fresh sizeOf_).2.1 = 0 ↔
      ∃ sz tok, st.cache = some (sz, tok) ∧ 160 ≤ sz ∧ sz < 196)
    ∧ (∀ sz tok, st.cache = some (sz, tok) → 160 ≤ sz → sz < 196 →
        load_token st fresh sizeOf_ = (tok, 0, st))
    ∧ (st.cache = none →
        load_token st fresh sizeOf_ = (fresh, 1, ⟨some (sizeOf_ fresh, fresh)⟩))
    ∧ (∀ sz tok, st.cache = some (sz, tok) → ¬(160 ≤ sz ∧ sz < 196) →
        load_token st fresh sizeOf_ = (fresh, 1, ⟨some (sizeOf_ fresh, fresh)⟩)) := by
  obtain ⟨cache⟩ := st
  refine ⟨?_, ?_, ?_, ?_⟩
  · cases cache with
    | none => simp [load_token, refresh_token]
    | some c =>
      obtain ⟨sz, tok⟩ := c
      by_cases h : 160 ≤ sz ∧ sz < 196
      · simp only [load_token, if_pos h]
        constructor
        · intro _
          exact ⟨sz, tok, rfl, h.1, h.2⟩
        · intro _
          trivial
      · simp only [load_token, if_neg h, refresh_token]
        constructor
        · intro hc
          simp at hc
        · rintro ⟨sz', tok', heq, hle, hlt⟩
          simp only [Option.some.injEq, Prod.mk.injEq] at heq
          obtain ⟨h1, _⟩ := heq
          subst h1
          exact absurd ⟨hle, hlt⟩ h
  · intro sz tok hc hle hlt
    cases cache with
    | none => exact absurd hc (by simp)
    | some c =>
      injection hc with hc'
      subst hc'
      simp [load_token, hle, hlt]
  · intro hc
    cases cache with
    | none => simp [load_token, refresh_token]
    | some c => exact absurd hc (by simp)
  · intro sz tok hc hrange
    cases cache with
    | none => exact absurd hc (by simp)
    | some c =>
      injection hc with hc'
      subst hc'
      simp [load_token, if_neg hrange, refresh_token]

/-- Claim C2 witness: the theorem applied to a valid cache of size 170
(no refresh) and to a missing cache file (one refresh that persists the
fresh token). -/
theorem C2_witness :
    load_token stValid tkFresh szF = (tkCached, 0, stValid)
    ∧ load_token ⟨none⟩ tkFresh szF = (tkFresh, 1, ⟨some (szF tkFresh, tkFresh)⟩) :=
  ⟨(C2_load_token stValid tkFresh szF).2.1 170 tkCached rfl (by norm_num) (by norm_num),
   (C2_load_token ⟨none⟩ tkFresh szF).2.2.1 rfl⟩

/-- Claim C3 (code bug): on a terminal 404 the source's delete_comment
returns normally — its outcome is ok — because it never checks the
response status, and the wire call it performs uses the GET verb, since
the delete branch of _send_request calls requests.get.  This contradicts
the claim (and the method's own docstring), which require an HTTP DELETE
and an error raised on any non-2xx result. -/
theorem C3_delete_comment_bug :
    (delete_comment stValid tkFresh szF transport404 rtoksEx).outcome = .ok ""
    ∧ ((delete_comment stValid tkFresh szF transport404 rtoksEx).sent.map
        fun s => s.response.status) = some 404
    ∧ ((delete_comment stValid tkFresh szF transport404 rtoksEx).sent.map
        fun s => s.attempts.map Attempt.verb) = some [Verb.get] := by
  have hsend : ∀ hs, send_request "delete" transport404 rtoksEx hs
      = some (runAttempts (verbOf "delete") transport404 rtoksEx hs) :=
    fun hs => send_request_known "delete" transport404 rtoksEx hs (Or.inr (Or.inr toLower_delete))
  refine ⟨?_, ?_, ?_⟩ <;>
    simp only [delete_comment, hsend, verbOf_delete] <;> decide

/-- Claim C4 (amended): listReturns sends a POST whose body contains
exactly the keys county (the source's name for the market code — not
countryIsoCode), channel, dateFrom and dateTo, and whose query
parameters are fields, sort, pageSize and currentPage; for every 2xx
terminal response it returns the parsed JSON unmodified, and for every
4xx or 5xx terminal response it raises an HttpError carrying status and
body. -/
theorem C4_get_returns (st : TokenState) (fresh : Token) (sizeOf_ : Token → Nat)
    (T : Nat → HttpResponse) (K : Nat → Token) (d1 d2 : String) (ps cp : Int)
    (f so ct co ch : String) :
    (get_returns st fresh sizeOf_ T K d1 d2 ps cp f so ct co ch).reqBody.map Prod.fst
      = ["county", "channel", "dateFrom", "dateTo"]
    ∧ (get_returns st fresh sizeOf_ T K d1 d2 ps cp f so ct co ch).params.map Prod.fst
      = ["fields", "sort", "pageSize", "currentPage"]
    ∧ (get_returns st fresh sizeOf_ T K d1 d2 ps cp f so ct co ch).sent
      = some (runAttempts .post T K
          (build_headers [("Authorization", some (authValue (load_token st fresh sizeOf_).1)),
            ("Content_Type", some ct)]))
    ∧ ∀ res, (get_returns st fresh sizeOf_ T K d1 d2 ps cp f so ct co ch).sent = some res →
        (200 ≤ res.response.status → res.response.status < 300 →
          (get_returns st fresh sizeOf_ T K d1 d2 ps cp f so ct co ch).outcome
            = .ok res.response.respBody)
        ∧ (400 ≤ res.response.status → res.response.status < 600 →
          (get_returns st fresh sizeOf_ T K d1 d2 ps cp f so ct co ch).outcome
            = .error (.http res.response.status res.response.respBody)) := by
  have hsend : ∀ hs, send_request "post" T K hs = some (runAttempts (verbOf "post") T K hs) :=
    fun hs => send_request_known "post" T K hs (Or.inl toLower_post)
  refine ⟨?_, ?_, ?_, ?_⟩
  · simp [get_returns, hsend, build_body, omitNone]
  · simp [get_returns, hsend, build_params, omitNone]
  · simp [get_returns, hsend, verbOf_post]
  · intro res hres
    rw [show (get_returns st fresh sizeOf_ T K d1 d2 ps cp f so ct co ch).outcome
        = (raise_for_status res.response).map (fun _ => res.response.respBody) from ?_]
    · constructor
      · intro h1 h2
        have hn : ¬(400 ≤ res.response.status ∧ res.response.status < 600) := by omega
        simp [raise_for_status, hn, Except.map]
      · intro h1 h2
        simp [raise_for_status, h1, h2, Except.map]
    · simp only [get_returns, hsend] at hres ⊢
      simp only [Option.some.injEq] at hres
      simp [hres]

/-- Claim C4 counterexample: the POST body built by the source uses the
key county, not countryIsoCode, and a terminal 304 response — non-2xx —
is returned as parsed JSON without raising. -/
theorem C4_counterexample :
    (get_returns stValid tkFresh szF transport304 rtoksEx "2025-01-01" "2025-01-06" 30 0
      "BASIC,CIS_BOSS_BASIC,FULL" "date:asc" "application/json" "KZ" "WEB").reqBody.map Prod.fst
      = ["county", "channel", "dateFrom", "dateTo"]
    ∧ ¬ ("countryIsoCode" ∈ (get_returns stValid tkFresh szF transport304 rtoksEx
        "2025-01-01" "2025-01-06" 30 0 "BASIC,CIS_BOSS_BASIC,FULL" "date:asc"
        "application/json" "KZ" "WEB").reqBody.map Prod.fst)
    ∧ (get_returns stValid tkFresh szF transport304 rtoksEx "2025-01-01" "2025-01-06" 30 0
        "BASIC,CIS_BOSS_BASIC,FULL" "date:asc" "application/json" "KZ" "WEB").outcome
      = .ok "not modified" := by
  have hsend : ∀ hs, send_request "post" transport304 rtoksEx hs
      = some (runAttempts (verbOf "post") transport304 rtoksEx hs) :=
    fun hs => send_request_known "post" transport304 rtoksEx hs (Or.inl toLower_post)
  refine ⟨?_, ?_, ?_⟩ <;> simp only [get_returns, hsend, verbOf_post] <;> decide

/-- Claim C4 witness: the amended theorem applied to a 200 terminal
response (parsed JSON returned) and to a 404 terminal response
(HttpError raised with status and body). -/
theorem C4_witness :
    (get_returns stValid tkFresh szF transport200 rtoksEx "2025-01-01" "2025-01-06" 30 0
      "BASIC" "date:asc" "application/json" "KZ" "WEB").outcome = .ok "payload"
    ∧ (get_returns stValid tkFresh szF transport404 rtoksEx "2025-01-01" "2025-01-06" 30 0
      "BASIC" "date:asc" "application/json" "KZ" "WEB").outcome
      = .error (.http 404 "not found") := by
  obtain ⟨-, -, hsent1, hout1⟩ := C4_get_returns stValid tkFresh szF transport200 rtoksEx
    "2025-01-01" "2025-01-06" 30 0 "BASIC" "date:asc" "application/json" "KZ" "WEB"
  obtain ⟨-, -, hsent2, hout2⟩ := C4_get_returns stValid tkFresh szF transport404 rtoksEx
    "2025-01-01" "2025-01-06" 30 0 "BASIC" "date:asc" "application/json" "KZ" "WEB"
  constructor
  · rw [(hout1 _ hsent1).1 (by decide) (by decide)]
    decide
  · rw [(hout2 _ hsent2).2 (by decide) (by decide)]
    decide

/-- Claim C5 (amended): the header, query-parameter and body builders
drop exactly the entries whose value is None and keep every other entry
unchanged — in particular buildParams on fields F and sort None yields
only the fields entry — and the request headers built by get_returns
consist of an Authorization entry equal to the token type and access
token joined by a space, and a Content_Type entry (the Python keyword
argument name, with an underscore: no Content-Type entry is produced)
equal to the given content type. -/
theorem C5_builders {α : Type} (d : α) (kvs : List (String × Option α))
    (st : TokenState) (fresh : Token) (sizeOf_ : Token → Nat)
    (T : Nat → HttpResponse) (K : Nat → Token) (d1 d2 : String) (ps cp : Int)
    (f so ct co ch : String) :
    build_headers kvs = (kvs.filter fun kv => kv.2.isSome).map (fun kv => (kv.1, kv.2.getD d))
    ∧ build_params kvs = (kvs.filter fun kv => kv.2.isSome).map (fun kv => (kv.1, kv.2.getD d))
    ∧ build_body kvs = (kvs.filter fun kv => kv.2.isSome).map (fun kv => (kv.1, kv.2.getD d))
    ∧ build_params [("fields", some (PVal.str "F")), ("sort", none)]
      = [("fields", PVal.str "F")]
    ∧ (get_returns st fresh sizeOf_ T K d1 d2 ps cp f so ct co ch).headers
      = [("Authorization", (load_token st fresh sizeOf_).1.token_type ++ " "
            ++ (load_token st fresh sizeOf_).1.access_token),
         ("Content_Type", ct)] := by
  have hsend : ∀ hs, send_request "post" T K hs = some (runAttempts (verbOf "post") T K hs) :=
    fun hs => send_request_known "post" T K hs (Or.inl toLower_post)
  refine ⟨omitNone_eq_filter_map d kvs, omitNone_eq_filter_map d kvs,
    omitNone_eq_filter_map d kvs, rfl, ?_⟩
  simp [get_returns, hsend, build_headers, omitNone, authValue]

/-- Claim C5 counterexample: the headers built by get_returns contain no
Content-Type entry; the content type is bound to the key Content_Type
instead, while Authorization is as claimed. -/
theorem C5_counterexample :
    (get_returns stValid tkFresh szF transport200 rtoksEx "2025-01-01" "2025-01-06" 30 0
      "BASIC" "date:asc" "application/json" "KZ" "WEB").headers.lookup "Content-Type" = none
    ∧ (get_returns stValid tkFresh szF transport200 rtoksEx "2025-01-01" "2025-01-06" 30 0
        "BASIC" "date:asc" "application/json" "KZ" "WEB").headers.lookup "Content_Type"
      = some "application/json"
    ∧ (get_returns stValid tkFresh szF transport200 rtoksEx "2025-01-01" "2025-01-06" 30 0
        "BASIC" "date:asc" "application/json" "KZ" "WEB").headers.lookup "Authorization"
      = some "Bearer abc" := by
  have hsend : ∀ hs, send_request "post" transport200 rtoksEx hs
      = some (runAttempts (verbOf "post") transport200 rtoksEx hs) :=
    fun hs => send_request_known "post" transport200 rtoksEx hs (Or.inl toLower_post)
  refine ⟨?_, ?_, ?_⟩ <;> simp only [get_returns, hsend, verbOf_post] <;> decide

lemma get_returns_data_createCalls_mem (cl : Client ε) :
    ∀ (inc : List Int) p, p ∈ (get_returns_data cl inc).2.createCalls →
      p.1 ∈ inc ∧ p.2 = "." := by
  intro inc
  induction inc with
  | nil =>
    intro p hp
    simp [get_returns_data] at hp
  | cons c rest ih =>
    intro p hp
    simp only [get_returns_data] at hp
    cases hcc : cl.createCommentOp c "." with
    | error e =>
      simp only [hcc] at hp
      simp at hp
      subst hp
      exact ⟨List.mem_cons_self c rest, rfl⟩
    | ok detail =>
      simp only [hcc] at hp
      rcases hda : deleteAnon cl c detail.cisComments with ⟨dres, dcalls⟩
      simp only [hda] at hp
      cases dres with
      | error e =>
        simp at hp
        subst hp
        exact ⟨List.mem_cons_self c rest, rfl⟩
      | ok u =>
        simp at hp
        rcases hp with hp | hp
        · subst hp
          exact ⟨List.mem_cons_self c rest, rfl⟩
        · obtain ⟨h1, h2⟩ := ih p hp
          exact ⟨List.mem_cons_of_mem _ h1, h2⟩

/-- Claim C6: the incomplete-returns filter selects exactly the codes
of the returns whose statusDisplay equals the pending-approval label,
preserving list order; the two-element example yields [1]; and every
probe-comment create call is made for a code of the incomplete list,
with comment text ".". -/
theorem C6_incomplete_filter (l : List ReturnItem)
    (h : ∀ r ∈ l, r.statusDisplay ≠ none
          ∧ (r.statusDisplay = some "Ожидает утверждения" → r.code ≠ none)) :
    search_incomplete_returns l
      = .ok ((l.filter fun r => r.statusDisplay = some "Ожидает утверждения").map
          fun r => r.code.getD 0)
    ∧ search_incomplete_returns [riPending, riApproved] = .ok [1]
    ∧ ∀ (ε : Type) (cl : Client ε) (inc : List Int) p,
        p ∈ (get_returns_data cl inc).2.createCalls → p.1 ∈ inc ∧ p.2 = "." := by
  refine ⟨?_, by decide, fun ε cl inc p hp => get_returns_data_createCalls_mem cl inc p hp⟩
  induction l with
  | nil => simp [search_incomplete_returns]
  | cons r rest ih =>
    obtain ⟨h1, h2⟩ := h r (List.mem_cons_self r rest)
    have hrest := fun r' hr' => h r' (List.mem_cons_of_mem r hr')
    cases hsd : r.statusDisplay with
    | none => exact absurd hsd h1
    | some sd =>
      by_cases heq : sd = "Ожидает утверждения"
      · subst heq
        cases hcode : r.code with
        | none => exact absurd hcode (h2 hsd)
        | some c =>
          simp [search_incomplete_returns, hsd, hcode, ih hrest, List.filter_cons, Except.map]
      · simp [search_incomplete_returns, hsd, heq, ih hrest, List.filter_cons, Except.map]

/-- Claim C6 witness: the theorem applied to the two-element example
list. -/
theorem C6_witness :
    search_incomplete_returns [riPending, riApproved] = .ok [1] :=
  (C6_incomplete_filter [riPending, riApproved] (by decide)).2.1

lemma deleteAnon_all_ok (cl : Client ε) (c : Int)
    (hdel : ∀ n, cl.deleteCommentOp c n = .ok ()) :
    ∀ cms, deleteAnon cl c cms
      = (.ok (), (cms.filter fun cm => cm.authorName = "Anonymous").map
          fun cm => (c, cm.code)) := by
  intro cms
  induction cms with
  | nil => rfl
  | cons cm rest ih =>
    by_cases h : cm.authorName = "Anonymous"
    · simp [deleteAnon, h, hdel cm.code, ih, List.filter_cons]
    · simp [deleteAnon, h, ih, List.filter_cons]

/-- Claim C7: for each incomplete return code the probe step creates
one comment with text ".", deletes exactly the comments of the returned
detail record authored by Anonymous — one delete call per such comment,
none for other authors — and retains the detail records, in order, as
the enrichment source. -/
theorem C7_probe_cleanup (ε : Type) (cl : Client ε) (inc : List Int) (D : Int → Detail)
    (hcreate : ∀ c ∈ inc, cl.createCommentOp c "." = .ok (D c))
    (hdelete : ∀ c n, cl.deleteCommentOp c n = .ok ()) :
    get_returns_data cl inc
      = (.ok (inc.map D),
         ⟨inc.map fun c => (c, "."),
          inc.flatMap fun c =>
            ((D c).cisComments.filter fun cm => cm.authorName = "Anonymous").map
              fun cm => (c, cm.code)⟩) := by
  revert hcreate
  induction inc with
  | nil =>
    intro _
    rfl
  | cons c rest ih =>
    intro hcreate
    have hc := hcreate c (List.mem_cons_self c rest)
    have ih' := ih fun c' h' => hcreate c' (List.mem_cons_of_mem c h')
    simp [get_returns_data, hc, deleteAnon_all_ok cl c (hdelete c), ih', Except.map]

/-- Claim C7 witness: the theorem applied to a detail record with an
anonymous sentinel comment (code 10) and a comment by Bob (code 11):
exactly one delete call is made, for comment code 10. -/
theorem C7_witness :
    get_returns_data clProbe [1] = (.ok [detAnon], ⟨[(1, ".")], [(1, 10)]⟩) := by
  have h := C7_probe_cleanup Unit clProbe [1] (fun _ => detAnon)
    (fun c _ => rfl) (fun c n => rfl)
  rw [h]
  decide

lemma innerLoop_skip (c : Int) (k : Option DetailFields) (ds : List Detail)
    (h : ∀ d ∈ ds, ¬ d.rma = some c) : innerLoop c k ds = .ok k := by
  induction ds with
  | nil => rfl
  | cons d rest ih =>
    have hd := h d (List.mem_cons_self d rest)
    simp [innerLoop, hd, ih fun d' h' => h d' (List.mem_cons_of_mem d h')]

lemma innerLoop_append_skip (c : Int) (k : Option DetailFields) (pre ds : List Detail)
    (h : ∀ d ∈ pre, ¬ d.rma = some c) :
    innerLoop c k (pre ++ ds) = innerLoop c k ds := by
  induction pre with
  | nil => rfl
  | cons d rest ih =>
    have hd := h d (List.mem_cons_self d rest)
    simp [innerLoop, hd, ih fun d' h' => h d' (List.mem_cons_of_mem d h')]

/-- Claim C8: an incomplete return with order.account.uid U1 and
returnValue 500, together with a detail record whose rma equals the
return's code and whose entries are a single entry with productSku S1
and expectedQuantity 2, flattens to one record with uid U1,
return_value 500 and sku_and_quantity [S1 2]; detail records whose rma
differs from the code, before or after the matching one, are ignored. -/
theorem C8_flattening (r : ReturnItem) (c : Int) (d : Detail) (e : EntryD)
    (o : OrderObj) (a : AccountObj) (pre post : List Detail)
    (hc : r.code = some c)
    (ho : r.order = some o) (ha : o.account = some a) (hu : a.accUid = some "U1")
    (hval : r.returnValue = some 500)
    (hrma : d.rma = some c)
    (hent : d.entries = some [e])
    (hsku : e.productSku = some "S1") (hqty : e.expectedQuantity = some 2)
    (hpre : ∀ x ∈ pre, ¬ x.rma = some c) (hpost : ∀ x ∈ post, ¬ x.rma = some c) :
    ∀ df, detailFields d = .ok df →
      simplify_core [r] [c] (pre ++ d :: post) = .ok [.record (buildRecord r c df)]
      ∧ (buildRecord r c df).uid = "U1"
      ∧ (buildRecord r c df).return_value = 500
      ∧ (buildRecord r c df).sku_and_quantity = ["S1 2"] := by
  intro df hdf
  have hinner : innerLoop c none (pre ++ d :: post) = .ok (some df) := by
    rw [innerLoop_append_skip c none pre (d :: post) hpre]
    simp [innerLoop, hrma, hdf, innerLoop_skip c (some df) post hpost]
  have hdf' : df.sku_and_quantity = ["S1 2"] := by
    simp only [detailFields, hent, Option.getD_some, List.map_cons, List.map_nil, hsku, hqty,
      pyStrS, pyStrI] at hdf
    have h2 := (Except.ok.injEq _ _).mp hdf
    rw [← h2]
    show ["S1" ++ " " ++ toString (2 : Int)] = ["S1 2"]
    decide
  refine ⟨?_, ?_, ?_, ?_⟩
  · simp [simplify_core, simplifyLoop, hc, hinner, Except.map]
  · simp [buildRecord, ho, ha, hu]
  · simp [buildRecord, hval]
  · simp [buildRecord, hdf']

/-- Claim C10: the detail-derived variables of the flattening loop are
never reset between iterations: when the current return has a code in
the incomplete list but no detail record matches it, the iteration
fails with NameError if the variables are still unbound (as they are
for the first incomplete return processed), and otherwise builds the
record from the values left over from a previously processed return,
passing them on unchanged. -/
theorem C10_detail_vars_not_reset (incomplete : List Int) (dsData : List Detail)
    (rest : List ReturnItem) (r : ReturnItem) (c : Int)
    (hc : r.code = some c) (hinc : c ∈ incomplete)
    (hnm : ∀ d ∈ dsData, ¬ d.rma = some c) :
    simplifyLoop incomplete dsData (r :: rest) none = .error .nameError
    ∧ ∀ df, simplifyLoop incomplete dsData (r :: rest) (some df)
        = (simplifyLoop incomplete dsData rest (some df)).map
            (fun tl => .record (buildRecord r c df) :: tl) := by
  constructor
  · simp [simplifyLoop, hc, hinc, innerLoop_skip c none dsData hnm]
  · intro df
    simp [simplifyLoop, hc, hinc, innerLoop_skip c (some df) dsData hnm]

/-- Claim C10 witness: the theorem applied to a single return with code
5, an empty detail list and stale leftover values. -/
theorem C10_witness :
    simplifyLoop [5] [] [rCode5] none = .error .nameError
    ∧ simplifyLoop [5] [] [rCode5] (some dfStale)
        = (simplifyLoop [5] [] [] (some dfStale)).map
            (fun tl => .record (buildRecord rCode5 5 dfStale) :: tl) :=
  ⟨(C10_detail_vars_not_reset [5] [] [] rCode5 5 rfl (by decide) (by simp)).1,
   (C10_detail_vars_not_reset [5] [] [] rCode5 5 rfl (by decide) (by simp)).2 dfStale⟩

/-- Claim C8 witness: the theorem applied to the concrete return rU1
(code 7, uid U1, value 500) and detail dSku (rma 7, one entry with
SKU S1 and quantity 2). -/
theorem C8_witness :
    simplify_core [rU1] [7] [dSku] = .ok [.record (buildRecord rU1 7 dfSku)]
    ∧ (buildRecord rU1 7 dfSku).uid = "U1"
    ∧ (buildRecord rU1 7 dfSku).return_value = 500
    ∧ (buildRecord rU1 7 dfSku).sku_and_quantity = ["S1 2"] :=
  C8_flattening rU1 7 dSku eSku oU1 ⟨some "U1"⟩ [] [] rfl rfl rfl rfl rfl rfl rfl rfl rfl
    (by simp) (by simp) dfSku (by decide)

/-- Claim C9: if the returns-list fetch raises, or if the probe step —
a comment-create or comment-delete call — raises, the error propagates
out of the orchestrator run unchanged, the run aborts and the webhook
is never invoked. -/
theorem C9_failure_aborts (ε : Type) (cl : Client ε) :
    (∀ e, cl.getReturnsOp = .error e →
        main_run cl = (.error (.api e), ⟨[], [], 0⟩))
    ∧ (∀ rl inc e, cl.getReturnsOp = .ok rl →
        search_incomplete_returns rl = .ok inc →
        (get_returns_data cl inc).1 = .error e →
        (main_run cl).1 = .error (.api e) ∧ (main_run cl).2.webhookCalls = 0) := by
  constructor
  · intro e he
    simp [main_run, he]
  · intro rl inc e hrl hinc hdata
    rcases hgd : get_returns_data cl inc with ⟨res, tr⟩
    rw [hgd] at hdata
    simp at hdata
    subst hdata
    constructor <;> simp [main_run, hrl, hinc, simplify_returns_list, hgd]

/-- Claim C9 witness: the theorem applied to a client whose fetch
raises and to a client whose comment-create probe raises. -/
theorem C9_witness :
    main_run clFetchFail = (.error (.api "boom"), ⟨[], [], 0⟩)
    ∧ (main_run clCreateFail).1 = .error (.api "createfail")
    ∧ (main_run clCreateFail).2.webhookCalls = 0 :=
  ⟨(C9_failure_aborts String clFetchFail).1 "boom" rfl,
   ((C9_failure_aborts String clCreateFail).2 [riPending, riApproved] [1] "createfail"
      rfl (by decide) rfl).1,
   ((C9_failure_aborts String clCreateFail).2 [riPending, riApproved] [1] "createfail"
      rfl (by decide) rfl).2⟩
